import Mathlib

/-
Verification of unix/stddialogs.c (libui standard dialogs).

The C file is a thin wrapper over GTK: it builds a file-chooser (or
message) dialog, sets a fixed collection of flags, registers file-type
filters, runs the dialog modally, and returns the chosen filename (or
NULL on cancellation).

Shallow embedding: every GTK call that configures the dialog is recorded
in a configuration record; the user's interaction with the modal dialog
is an oracle (the response code from gtk_dialog_run together with the
filename gtk_file_chooser_get_filename would report).  The shared
`pattern` buffer of the filter loop is modelled byte-for-byte as a
`List Char` with an explicit capacity, sprintf writing the characters
"*." ++ extension ++ NUL over the front of the buffer and leaving the
tail unchanged, exactly as the C library does.
-/

/-- The NUL terminator byte of C strings. -/
def NUL : Char := Char.ofNat 0

/-- Contents of freshly allocated bytes (indeterminate in C; any fixed
value is a sound model because the theorems never depend on it). -/
def junkChar : Char := 'J'

/-- `uiprivRealloc(p, n)`: reallocates the buffer to `n` bytes, keeping
the old contents up to `n` and leaving any newly allocated bytes
indeterminate.  `none` models the NULL pointer (malloc behaviour). -/
def uiprivRealloc (p : Option (List Char)) (newSize : Nat) : List Char :=
  (p.getD []).take newSize ++ List.replicate (newSize - (p.getD []).length) junkChar

/-- `sprintf(pattern, "*.%s", ext)`: writes '*', '.', the bytes of the
extension, and a terminating NUL over the front of the buffer; bytes
beyond position `3 + ext.length - 1` are left unchanged. -/
def sprintfPattern (buf : List Char) (ext : String) : List Char :=
  ('*' :: '.' :: ext.data ++ [NUL]) ++ buf.drop (3 + ext.length)

/-- Reading a buffer as a C string: the bytes before the first NUL. -/
def cStr (buf : List Char) : String :=
  String.mk (buf.takeWhile (fun c => c != NUL))

/-- The `uiFileTypeFilter` struct: a display name and its extensions. -/
structure uiFileTypeFilter where
  name : String
  extensions : List String
deriving DecidableEq

/-- A `GtkFileFilter` object as the loop leaves it: the name set by
`gtk_file_filter_set_name` and the patterns accumulated by
`gtk_file_filter_add_pattern`. -/
structure GtkFileFilter where
  name : String
  patterns : List String
deriving DecidableEq

/-- The state of the shared `pattern` buffer: the pointer (NULL at the
start) and `pattern_cap`. -/
structure BufState where
  pattern : Option (List Char)
  cap : Nat
deriving DecidableEq

/-- One execution of the `sprintf` at line 38, recording the filter
index, the extension, and the buffer capacity and length at the moment
of the write. -/
structure SprintfEvent where
  filterIdx : Nat
  ext : String
  capAtWrite : Nat
  bufLenAtWrite : Nat
deriving DecidableEq

/-- Result of the inner loop over one filter's extensions. -/
structure ExtLoopOut where
  st : BufState
  patterns : List String
  trace : List SprintfEvent
deriving DecidableEq

/-- The inner loop (`for j`) of `filedialog`: for each extension,
grow the shared buffer if `3 + ext_len > pattern_cap`, sprintf the
pattern into it, and register the resulting C string with the current
`GtkFileFilter`. -/
def extLoop (i : Nat) (st : BufState) : List String → ExtLoopOut
  | [] => ⟨st, [], []⟩
  | ext :: rest =>
      let st1 : BufState :=
        if 3 + ext.length > st.cap then
          ⟨some (uiprivRealloc st.pattern (3 + ext.length)), 3 + ext.length⟩
        else st
      let buf : List Char := st1.pattern.getD []
      let newBuf : List Char := sprintfPattern buf ext
      let out := extLoop i ⟨some newBuf, st1.cap⟩ rest
      ⟨out.st, cStr newBuf :: out.patterns, ⟨i, ext, st1.cap, buf.length⟩ :: out.trace⟩

/-- Result of the outer loop over the filters. -/
structure FilterLoopOut where
  st : BufState
  gfilters : List GtkFileFilter
  addFilterCalls : List Nat
  trace : List SprintfEvent
deriving DecidableEq

/-- The outer loop (`for i`) of `filedialog`: one fresh `GtkFileFilter`
per filter, named after it; `gtk_file_chooser_add_filter(fc, gfilter)`
is invoked inside the inner loop, once per extension, recorded here as
the index of the filter object being attached. -/
def filterLoop (i : Nat) (st : BufState) : List uiFileTypeFilter → FilterLoopOut
  | [] => ⟨st, [], [], []⟩
  | f :: rest =>
      let inner := extLoop i st f.extensions
      let outer := filterLoop (i + 1) inner.st rest
      ⟨outer.st, ⟨f.name, inner.patterns⟩ :: outer.gfilters,
        f.extensions.map (fun _ => i) ++ outer.addFilterCalls,
        inner.trace ++ outer.trace⟩

/-- GTK file-chooser modes used by the wrapper. -/
inductive GtkFileChooserAction where
  | openAction
  | selectFolder
  | save
deriving DecidableEq

/-- GTK dialog response codes. -/
inductive GtkResponse where
  | accept
  | cancel
  | deleteEvent
  | other : Int → GtkResponse
deriving DecidableEq

/-- The configuration of the file-chooser dialog at the moment
`gtk_dialog_run` is called: every property `filedialog` sets. -/
structure FileDialogConfig where
  parent : Option Nat
  action : GtkFileChooserAction
  cancelLabel : String
  confirmLabel : String
  localOnly : Bool
  selectMultiple : Bool
  showHidden : Bool
  doOverwriteConfirmation : Bool
  createFolders : Bool
  gfilters : List GtkFileFilter
  addFilterCalls : List Nat
  sprintfTrace : List SprintfEvent
deriving DecidableEq

/-- The configuration built by `filedialog` before running the dialog
(lines 16-43 of stddialogs.c). -/
def filedialogConfig (parent : Option Nat) (mode : GtkFileChooserAction)
    (confirm : String) (filters : List uiFileTypeFilter) : FileDialogConfig :=
  { parent := parent
    action := mode
    cancelLabel := "_Cancel"
    confirmLabel := confirm
    localOnly := false
    selectMultiple := false
    showHidden := true
    doOverwriteConfirmation := true
    createFolders := true
    gfilters := (filterLoop 0 ⟨none, 0⟩ filters).gfilters
    addFilterCalls := (filterLoop 0 ⟨none, 0⟩ filters).addFilterCalls
    sprintfTrace := (filterLoop 0 ⟨none, 0⟩ filters).trace }

/-- The user's interaction with the modal dialog: the response code
`gtk_dialog_run` returns, and the filename
`gtk_file_chooser_get_filename` would report (NULL possible). -/
structure DialogOracle where
  response : GtkResponse
  filename : Option String
deriving DecidableEq

/-- Lines 45-52: if the response is not GTK_RESPONSE_ACCEPT the dialog
is destroyed and NULL returned; otherwise the chosen filename is
returned verbatim. -/
def filedialogResult (o : DialogOracle) : Option String :=
  if o.response = GtkResponse.accept then o.filename else none

/-- A complete run of `filedialog`: the configuration it built and the
value it returns. -/
structure DialogRun where
  config : FileDialogConfig
  result : Option String
deriving DecidableEq

/-- `filedialog` itself, parameterised by the user's interaction. -/
def filedialog (parent : Option Nat) (mode : GtkFileChooserAction)
    (confirm : String) (filters : List uiFileTypeFilter)
    (o : DialogOracle) : DialogRun :=
  ⟨filedialogConfig parent mode confirm filters, filedialogResult o⟩

/-- A `uiWindow`, abstracted to the GTK window handle that
`GTK_WINDOW(uiControlHandle(uiControl(w)))` would produce. -/
structure uiWindow where
  gtkHandle : Nat
deriving DecidableEq

/-- The `windowWindow` macro: NULL stays NULL, otherwise the GTK window
handle is extracted; the handle is never touched in the NULL case. -/
def windowWindow : Option uiWindow → Option Nat
  | none => none
  | some w => some w.gtkHandle

/-- `uiOpenFile`: open-mode dialog, "_Open" confirm label, no filters. -/
def uiOpenFile (parent : Option uiWindow) (o : DialogOracle) : DialogRun :=
  filedialog (windowWindow parent) GtkFileChooserAction.openAction "_Open" [] o

/-- `uiOpenFolder`: select-folder mode, "_Open" label, no filters. -/
def uiOpenFolder (parent : Option uiWindow) (o : DialogOracle) : DialogRun :=
  filedialog (windowWindow parent) GtkFileChooserAction.selectFolder "_Open" [] o

/-- `uiSaveFile`: save mode, "_Save" label, no filters. -/
def uiSaveFile (parent : Option uiWindow) (o : DialogOracle) : DialogRun :=
  filedialog (windowWindow parent) GtkFileChooserAction.save "_Save" [] o

/-- `uiSaveFile2`: save mode, "_Save" label, caller-supplied filters. -/
def uiSaveFile2 (parent : Option uiWindow) (filters : List uiFileTypeFilter)
    (o : DialogOracle) : DialogRun :=
  filedialog (windowWindow parent) GtkFileChooserAction.save "_Save" filters o

/-- GTK message-dialog severities. -/
inductive GtkMessageType where
  | infoType
  | warningType
  | questionType
  | errorType
  | otherType
deriving DecidableEq

/-- GTK message-dialog button sets. -/
inductive GtkButtonsType where
  | buttonsNone
  | buttonsOk
  | buttonsClose
  | buttonsCancel
  | buttonsYesNo
  | buttonsOkCancel
deriving DecidableEq

/-- The configuration of the message dialog `msgbox` builds. -/
structure MessageDialogConfig where
  parent : Option Nat
  modal : Bool
  msgType : GtkMessageType
  buttons : GtkButtonsType
  primaryText : String
  secondaryText : String
deriving DecidableEq

/-- `msgbox` (lines 75-85): a modal message dialog with the title as
primary text and the description as secondary text. -/
def msgbox (parent : Option Nat) (title description : String)
    (t : GtkMessageType) (b : GtkButtonsType) : MessageDialogConfig :=
  { parent := parent
    modal := true
    msgType := t
    buttons := b
    primaryText := title
    secondaryText := description }

/-- Running the message dialog: `gtk_dialog_run`'s result is discarded
and the dialog destroyed, so nothing is returned to the caller. -/
def msgboxRun (_cfg : MessageDialogConfig) : Unit := ()

/-- `uiMsgBox`: severity GTK_MESSAGE_OTHER, buttons GTK_BUTTONS_OK. -/
def uiMsgBox (parent : Option uiWindow) (title description : String) :
    MessageDialogConfig :=
  msgbox (windowWindow parent) title description
    GtkMessageType.otherType GtkButtonsType.buttonsOk

/-- `uiMsgBoxError`: severity GTK_MESSAGE_ERROR, buttons GTK_BUTTONS_OK. -/
def uiMsgBoxError (parent : Option uiWindow) (title description : String) :
    MessageDialogConfig :=
  msgbox (windowWindow parent) title description
    GtkMessageType.errorType GtkButtonsType.buttonsOk

/-- The fixed flag set every file dialog receives (lines 21-25). -/
def standardFlags (cfg : FileDialogConfig) : Prop :=
  cfg.selectMultiple = false ∧ cfg.showHidden = true ∧ cfg.localOnly = false ∧
    cfg.doOverwriteConfirmation = true ∧ cfg.createFolders = true

/-! ## Buffer lemmas -/

lemma takeWhile_append_nul (l₁ l₂ : List Char) (h : ∀ c ∈ l₁, c ≠ NUL) :
    (l₁ ++ NUL :: l₂).takeWhile (fun c => c != NUL) = l₁ := by
  induction l₁ with
  | nil => simp [List.takeWhile_cons]
  | cons a t ih =>
      have ha : (a != NUL) = true := bne_iff_ne.mpr (h a (by simp))
      simp only [List.cons_append, List.takeWhile_cons, ha, if_true]
      exact congrArg (a :: ·) (ih fun c hc => h c (by simp [hc]))

lemma mk_star_dot (ext : String) :
    String.mk ('*' :: '.' :: ext.data) = "*." ++ ext := by
  cases ext with
  | mk d => rfl

lemma cStr_sprintfPattern (buf : List Char) (ext : String)
    (h : NUL ∉ ext.data) :
    cStr (sprintfPattern buf ext) = "*." ++ ext := by
  unfold cStr sprintfPattern
  have : ('*' :: '.' :: ext.data ++ [NUL]) ++ buf.drop (3 + ext.length)
      = ('*' :: '.' :: ext.data) ++ NUL :: buf.drop (3 + ext.length) := by
    simp
  rw [this, takeWhile_append_nul _ _ ?_, mk_star_dot]
  intro c hc
  simp only [List.mem_cons] at hc
  rcases hc with rfl | rfl | hc
  · decide
  · decide
  · exact fun he => h (he ▸ hc)

lemma length_uiprivRealloc (p : Option (List Char)) (n : Nat) :
    (uiprivRealloc p n).length = n := by
  unfold uiprivRealloc
  simp [List.length_take]
  omega

lemma length_sprintfPattern (buf : List Char) (ext : String)
    (h : 3 + ext.length ≤ buf.length) :
    (sprintfPattern buf ext).length = buf.length := by
  have hd : ext.data.length = ext.length := rfl
  unfold sprintfPattern
  simp only [List.cons_append, List.length_append, List.length_cons,
    List.length_nil, List.length_drop]
  omega

/-! ## Loop lemmas -/

lemma extLoop_patterns (i : Nat) (st : BufState) (exts : List String)
    (h : ∀ ext ∈ exts, NUL ∉ ext.data) :
    (extLoop i st exts).patterns = exts.map (fun e => "*." ++ e) := by
  induction exts generalizing st with
  | nil => rfl
  | cons ext rest ih =>
      simp only [extLoop, List.map_cons]
      rw [cStr_sprintfPattern _ _ (h ext (by simp))]
      exact congrArg _ (ih _ fun e he => h e (by simp [he]))

lemma filterLoop_gfilters (i : Nat) (st : BufState)
    (filters : List uiFileTypeFilter)
    (h : ∀ f ∈ filters, ∀ ext ∈ f.extensions, NUL ∉ ext.data) :
    (filterLoop i st filters).gfilters =
      filters.map (fun f => ⟨f.name, f.extensions.map (fun e => "*." ++ e)⟩) := by
  induction filters generalizing i st with
  | nil => rfl
  | cons f rest ih =>
      simp only [filterLoop, List.map_cons]
      rw [extLoop_patterns _ _ _ (h f (by simp))]
      exact congrArg _ (ih _ _ fun g hg => h g (by simp [hg]))

lemma filterLoop_calls (i : Nat) (st : BufState)
    (filters : List uiFileTypeFilter) :
    (filterLoop i st filters).addFilterCalls.length =
      (filters.map (fun f => f.extensions.length)).sum := by
  induction filters generalizing i st with
  | nil => rfl
  | cons f rest ih =>
      simp only [filterLoop, List.map_cons, List.sum_cons, List.length_append,
        List.length_map]
      rw [ih]

/-- The buffer invariant: the allocated length of the shared buffer
equals `pattern_cap` (the NULL pointer counts as length 0). -/
def bufInv (st : BufState) : Prop :=
  (st.pattern.getD []).length = st.cap

lemma extLoop_trace (i : Nat) (st : BufState) (exts : List String)
    (hinv : bufInv st) :
    (∀ e ∈ (extLoop i st exts).trace,
        3 + e.ext.length ≤ e.capAtWrite ∧ e.bufLenAtWrite = e.capAtWrite) ∧
      bufInv (extLoop i st exts).st := by
  induction exts generalizing st with
  | nil => exact ⟨by simp [extLoop], hinv⟩
  | cons ext rest ih =>
      by_cases hc : 3 + ext.length > st.cap
      · have hlen : (uiprivRealloc st.pattern (3 + ext.length)).length
            = 3 + ext.length := length_uiprivRealloc _ _
        have hinv1 : bufInv ⟨some (sprintfPattern
            (uiprivRealloc st.pattern (3 + ext.length)) ext), 3 + ext.length⟩ := by
          unfold bufInv
          simp only [Option.getD_some]
          rw [length_sprintfPattern _ _ (by omega), hlen]
        obtain ⟨hall, hfin⟩ := ih _ hinv1
        refine ⟨?_, ?_⟩
        · intro e he
          simp only [extLoop, if_pos hc, List.mem_cons] at he
          rcases he with rfl | he
          · simp [hlen]
          · exact hall e he
        · simpa [extLoop, if_pos hc] using hfin
      · have hcap : 3 + ext.length ≤ st.cap := by omega
        have hbuf : (st.pattern.getD []).length = st.cap := hinv
        have hinv1 : bufInv ⟨some (sprintfPattern (st.pattern.getD [])
            ext), st.cap⟩ := by
          unfold bufInv
          simp only [Option.getD_some]
          rw [length_sprintfPattern _ _ (by omega), hbuf]
        obtain ⟨hall, hfin⟩ := ih _ hinv1
        refine ⟨?_, ?_⟩
        · intro e he
          simp only [extLoop, if_neg hc, List.mem_cons] at he
          rcases he with rfl | he
          · exact ⟨by simpa using hcap, by simpa using hbuf⟩
          · exact hall e he
        · simpa [extLoop, if_neg hc] using hfin

lemma filterLoop_trace (i : Nat) (st : BufState)
    (filters : List uiFileTypeFilter) (hinv : bufInv st) :
    (∀ e ∈ (filterLoop i st filters).trace,
        3 + e.ext.length ≤ e.capAtWrite ∧ e.bufLenAtWrite = e.capAtWrite) ∧
      bufInv (filterLoop i st filters).st := by
  induction filters generalizing i st with
  | nil => exact ⟨by simp [filterLoop], hinv⟩
  | cons f rest ih =>
      obtain ⟨hall, hmid⟩ := extLoop_trace i st f.extensions hinv
      obtain ⟨hall2, hfin⟩ := ih (i + 1) _ hmid
      refine ⟨?_, by simpa [filterLoop] using hfin⟩
      intro e he
      simp only [filterLoop, List.mem_append] at he
      rcases he with he | he
      · exact hall e he
      · exact hall2 e he

/-! ## Claims -/

/-- C1 (counterexample): with the single filter ⟨"Images", ["png","jpg"]⟩,
`gtk_file_chooser_add_filter` is invoked twice (once per extension, from
inside the inner loop), so the number of filter entries attached to the
chooser is 2, not the number of filters supplied (1). -/
theorem C1_counterexample :
    (uiSaveFile2 none [⟨"Images", ["png", "jpg"]⟩]
        ⟨GtkResponse.cancel, none⟩).config.addFilterCalls.length ≠
      ([(⟨"Images", ["png", "jpg"]⟩ : uiFileTypeFilter)] :
        List uiFileTypeFilter).length := by decide

/-- C1 (amended): each filter is registered under its own named
`GtkFileFilter` object carrying the pattern "*." ++ ext for each of its
extensions, but the add-filter call is issued once per extension, so the
number of filter entries attached to the chooser equals the total number
of extensions across all filters (not the number of filters). -/
theorem C1_filters_registration (parent : Option uiWindow)
    (filters : List uiFileTypeFilter) (o : DialogOracle)
    (hN : ∀ f ∈ filters, ∀ ext ∈ f.extensions, NUL ∉ ext.data) :
    (uiSaveFile2 parent filters o).config.addFilterCalls.length =
      (filters.map (fun f => f.extensions.length)).sum ∧
    (uiSaveFile2 parent filters o).config.gfilters =
      filters.map (fun f => ⟨f.name, f.extensions.map (fun e => "*." ++ e)⟩) :=
  ⟨filterLoop_calls 0 ⟨none, 0⟩ filters,
    filterLoop_gfilters 0 ⟨none, 0⟩ filters hN⟩

/-- C1 witness: the amended claim at the concrete input
filters = [⟨"Images", ["png","jpg"]⟩]. -/
theorem C1_filters_registration_witness :
    (∀ f ∈ [(⟨"Images", ["png", "jpg"]⟩ : uiFileTypeFilter)],
        ∀ ext ∈ f.extensions, NUL ∉ ext.data) ∧
    ((uiSaveFile2 none [⟨"Images", ["png", "jpg"]⟩]
        ⟨GtkResponse.cancel, none⟩).config.addFilterCalls.length =
      ([(⟨"Images", ["png", "jpg"]⟩ : uiFileTypeFilter)].map
        (fun f => f.extensions.length)).sum ∧
    (uiSaveFile2 none [⟨"Images", ["png", "jpg"]⟩]
        ⟨GtkResponse.cancel, none⟩).config.gfilters =
      [(⟨"Images", ["png", "jpg"]⟩ : uiFileTypeFilter)].map
        (fun f => ⟨f.name, f.extensions.map (fun e => "*." ++ e)⟩)) :=
  ⟨by decide, C1_filters_registration none [⟨"Images", ["png", "jpg"]⟩]
    ⟨GtkResponse.cancel, none⟩ (by decide)⟩

/-- C2: whenever the dialog response is anything other than
GTK_RESPONSE_ACCEPT, all four file-dialog entry points return NULL
("no selection"); the result type has no error channel, so cancellation
is never reported as an error. -/
theorem C2_cancel_is_no_selection (parent : Option uiWindow)
    (filters : List uiFileTypeFilter) (o : DialogOracle)
    (h : o.response ≠ GtkResponse.accept) :
    (uiOpenFile parent o).result = none ∧
    (uiOpenFolder parent o).result = none ∧
    (uiSaveFile parent o).result = none ∧
    (uiSaveFile2 parent filters o).result = none := by
  refine ⟨?_, ?_, ?_, ?_⟩ <;>
    simp [uiOpenFile, uiOpenFolder, uiSaveFile, uiSaveFile2, filedialog,
      filedialogResult, h]

/-- C2 witness: cancelling with no parent returns NULL everywhere. -/
theorem C2_cancel_is_no_selection_witness :
    (uiOpenFile none ⟨GtkResponse.cancel, some "/etc/hosts"⟩).result = none ∧
    (uiOpenFolder none ⟨GtkResponse.cancel, some "/etc/hosts"⟩).result = none ∧
    (uiSaveFile none ⟨GtkResponse.cancel, some "/etc/hosts"⟩).result = none ∧
    (uiSaveFile2 none [] ⟨GtkResponse.cancel, some "/etc/hosts"⟩).result = none :=
  C2_cancel_is_no_selection none [] ⟨GtkResponse.cancel, some "/etc/hosts"⟩
    (by decide)

/-- C3: `uiSaveFile2` with an empty filters list is the very same
computation as `uiSaveFile`: same configuration (no filter entries) and
same result for every user response. -/
theorem C3_empty_filters_is_uiSaveFile (parent : Option uiWindow)
    (o : DialogOracle) :
    uiSaveFile2 parent [] o = uiSaveFile parent o := rfl

/-- C4: the pattern written for an extension is exactly "*." followed by
the extension, whatever the previous contents of the shared buffer
(so no stale bytes from an earlier, longer extension survive), and in
the full loop every registered pattern has this exact form. -/
theorem C4_pattern_regeneration (parent : Option uiWindow)
    (filters : List uiFileTypeFilter) (o : DialogOracle)
    (buf : List Char) (ext : String)
    (hN : ∀ f ∈ filters, ∀ e ∈ f.extensions, NUL ∉ e.data)
    (hx : NUL ∉ ext.data) :
    cStr (sprintfPattern buf ext) = "*." ++ ext ∧
    (uiSaveFile2 parent filters o).config.gfilters =
      filters.map (fun f => ⟨f.name, f.extensions.map (fun e => "*." ++ e)⟩) :=
  ⟨cStr_sprintfPattern buf ext hx, filterLoop_gfilters 0 ⟨none, 0⟩ filters hN⟩

/-- C4 witness: the buffer still holding "*.html" plus terminator is
overwritten for extension "c", yielding exactly "*.c"; the loop on
filters = [⟨"Sources", ["html","c"]⟩] registers ["*.html", "*.c"]. -/
theorem C4_pattern_regeneration_witness :
    ((∀ f ∈ [(⟨"Sources", ["html", "c"]⟩ : uiFileTypeFilter)],
        ∀ e ∈ f.extensions, NUL ∉ e.data) ∧ NUL ∉ "c".data) ∧
    (cStr (sprintfPattern ['*', '.', 'h', 't', 'm', 'l', NUL] "c")
        = "*." ++ "c" ∧
    (uiSaveFile2 none [⟨"Sources", ["html", "c"]⟩]
        ⟨GtkResponse.cancel, none⟩).config.gfilters =
      [(⟨"Sources", ["html", "c"]⟩ : uiFileTypeFilter)].map
        (fun f => ⟨f.name, f.extensions.map (fun e => "*." ++ e)⟩)) :=
  ⟨⟨by decide, by decide⟩,
    C4_pattern_regeneration none [⟨"Sources", ["html", "c"]⟩]
      ⟨GtkResponse.cancel, none⟩ ['*', '.', 'h', 't', 'm', 'l', NUL] "c"
      (by decide) (by decide)⟩

/-- C5: with a NULL parent, `windowWindow` yields NULL without touching
any window handle, and every operation produces exactly the run it
produces with a present parent except that the anchoring-window
reference is NULL. -/
theorem C5_null_parent (w : uiWindow) (o : DialogOracle)
    (filters : List uiFileTypeFilter) (title description : String) :
    windowWindow none = none ∧
    uiOpenFile none o =
      ⟨{ (uiOpenFile (some w) o).config with parent := none },
        (uiOpenFile (some w) o).result⟩ ∧
    uiOpenFolder none o =
      ⟨{ (uiOpenFolder (some w) o).config with parent := none },
        (uiOpenFolder (some w) o).result⟩ ∧
    uiSaveFile none o =
      ⟨{ (uiSaveFile (some w) o).config with parent := none },
        (uiSaveFile (some w) o).result⟩ ∧
    uiSaveFile2 none filters o =
      ⟨{ (uiSaveFile2 (some w) filters o).config with parent := none },
        (uiSaveFile2 (some w) filters o).result⟩ ∧
    uiMsgBox none title description =
      { uiMsgBox (some w) title description with parent := none } ∧
    uiMsgBoxError none title description =
      { uiMsgBoxError (some w) title description with parent := none } :=
  ⟨rfl, rfl, rfl, rfl, rfl, rfl, rfl⟩

/-- C6: both message boxes build a modal dialog with the title as
primary text, the description as secondary text and the single-OK
button set; `uiMsgBox` uses GTK_MESSAGE_OTHER, `uiMsgBoxError`
GTK_MESSAGE_ERROR; running either returns nothing. -/
theorem C6_msgbox_config (parent : Option uiWindow)
    (title description : String) :
    uiMsgBox parent title description =
      { parent := windowWindow parent, modal := true,
        msgType := GtkMessageType.otherType,
        buttons := GtkButtonsType.buttonsOk,
        primaryText := title, secondaryText := description } ∧
    uiMsgBoxError parent title description =
      { parent := windowWindow parent, modal := true,
        msgType := GtkMessageType.errorType,
        buttons := GtkButtonsType.buttonsOk,
        primaryText := title, secondaryText := description } ∧
    msgboxRun (uiMsgBox parent title description) = () ∧
    msgboxRun (uiMsgBoxError parent title description) = () :=
  ⟨rfl, rfl, rfl, rfl⟩

/-- C7: both save dialogs enable overwrite confirmation and inline
folder creation. -/
theorem C7_save_dialog_flags (parent : Option uiWindow)
    (filters : List uiFileTypeFilter) (o : DialogOracle) :
    (uiSaveFile parent o).config.doOverwriteConfirmation = true ∧
    (uiSaveFile parent o).config.createFolders = true ∧
    (uiSaveFile2 parent filters o).config.doOverwriteConfirmation = true ∧
    (uiSaveFile2 parent filters o).config.createFolders = true :=
  ⟨rfl, rfl, rfl, rfl⟩

/-- C8: the wrapper returns the accepted filename verbatim, so a path
returned by one `uiSaveFile` call, fed back and accepted in a second
call, comes back as the identical string. -/
theorem C8_roundtrip (p1 p2 : Option uiWindow) (o : DialogOracle)
    (path : String) (_h : (uiSaveFile p1 o).result = some path) :
    (uiSaveFile p2 ⟨GtkResponse.accept, some path⟩).result = some path := by
  simp [uiSaveFile, filedialog, filedialogResult]

/-- C8 witness: the concrete path round-trips unchanged. -/
theorem C8_roundtrip_witness :
    (uiSaveFile none
        ⟨GtkResponse.accept, some "/home/user/a.txt"⟩).result
      = some "/home/user/a.txt" ∧
    (uiSaveFile none
        ⟨GtkResponse.accept, some "/home/user/a.txt"⟩).result
      = some "/home/user/a.txt" :=
  ⟨rfl, C8_roundtrip none none ⟨GtkResponse.accept, some "/home/user/a.txt"⟩
    "/home/user/a.txt" rfl⟩

/-- C9: every file dialog, in every mode, carries the same fixed flag
set: no multi-selection, hidden files shown, non-local files allowed,
overwrite confirmation on, folder creation on — including the open and
select-folder dialogs. -/
theorem C9_uniform_flags (parent : Option uiWindow)
    (filters : List uiFileTypeFilter) (o : DialogOracle) :
    standardFlags (uiOpenFile parent o).config ∧
    standardFlags (uiOpenFolder parent o).config ∧
    standardFlags (uiSaveFile parent o).config ∧
    standardFlags (uiSaveFile2 parent filters o).config :=
  ⟨⟨rfl, rfl, rfl, rfl, rfl⟩, ⟨rfl, rfl, rfl, rfl, rfl⟩,
    ⟨rfl, rfl, rfl, rfl, rfl⟩, ⟨rfl, rfl, rfl, rfl, rfl⟩⟩

/-- C10: at every sprintf in the filter loop the capacity of the shared
buffer is at least 3 + (length of the current extension) and the
allocated length equals the capacity, so the write of "*.", the
extension and the terminator never exceeds the allocation. -/
theorem C10_buffer_capacity (parent : Option uiWindow)
    (filters : List uiFileTypeFilter) (o : DialogOracle) (e : SprintfEvent)
    (he : e ∈ (uiSaveFile2 parent filters o).config.sprintfTrace) :
    3 + e.ext.length ≤ e.capAtWrite ∧ e.bufLenAtWrite = e.capAtWrite :=
  (filterLoop_trace 0 ⟨none, 0⟩ filters rfl).1 e he

/-- C10 witness: the first sprintf for filters
[⟨"Sources", ["html","c"]⟩] happens at capacity 7 = 3 + 4 with a
7-byte buffer. -/
theorem C10_buffer_capacity_witness :
    (⟨0, "html", 7, 7⟩ : SprintfEvent) ∈
      (uiSaveFile2 none [⟨"Sources", ["html", "c"]⟩]
        ⟨GtkResponse.cancel, none⟩).config.sprintfTrace ∧
    (3 + (⟨0, "html", 7, 7⟩ : SprintfEvent).ext.length ≤
        (⟨0, "html", 7, 7⟩ : SprintfEvent).capAtWrite ∧
      (⟨0, "html", 7, 7⟩ : SprintfEvent).bufLenAtWrite =
        (⟨0, "html", 7, 7⟩ : SprintfEvent).capAtWrite) :=
  ⟨by decide, C10_buffer_capacity none [⟨"Sources", ["html", "c"]⟩]
    ⟨GtkResponse.cancel, none⟩ ⟨0, "html", 7, 7⟩ (by decide)⟩
